import Mathlib

/-!
Verification of the sale-order query/reporting data-access layer
(`sale_order.py`, class `SaleOrderDao`).

The embedding below translates the Python source into Lean:

* machine decimals (`Decimal`, SQL `NUMERIC`) become `ℚ`;
* Python `dict`s become association lists, looked up with `List.lookup`;
* nullable database columns and optional request fields become `Option`;
* Python truthiness on strings and lists becomes `≠ ""` / `≠ []`;
* SQLAlchemy condition objects are embedded as an inductive `Cond`
  recording the predicate, the pattern string and the ILIKE escape
  argument actually passed by the source;
* the fallible amount-filter branch (a dict subscript that can raise
  `KeyError`) returns `Except`.

`fuzzy_search_string` and `DEFAULT_ESCAPE_CHAR` live in
`app.utils.sql_util`, outside the given source tree, and are modelled
from the specification.  The lifecycle-state description table
(`OrderStateEnum`, in `app.models`) is likewise external; functions that
need it take it as an explicit argument `state_case : Int → String`,
mirroring the derived `state_case` expression of the source.
-/

/-- Banker-free decimal rounding to 2 places, half away from zero: the
behaviour of PostgreSQL `round(x::numeric, 2)` used throughout the
source queries. -/
def round2 (q : ℚ) : ℚ :=
  (if 0 ≤ q then ((⌊q * 100 + 1/2⌋ : ℤ) : ℚ) else ((-⌊(-q) * 100 + 1/2⌋ : ℤ) : ℚ)) / 100

/-- A displayed cell value: either the literal dash `"-"` or a numeric
amount (the source renders the amount with `cast(_, String)`, which is
injective, so we keep the number itself). -/
inductive Disp where
  | dash : Disp
  | val (q : ℚ) : Disp
  deriving DecidableEq, Repr

/-- Row of the `sale_order` table (the columns this development uses). -/
structure SaleOrder where
  id : Int
  record_id : Int
  company_id : Int
  disabled : Bool
  order_source : Int
  state : Int
  order_number : String
  member_name : Option String
  member_phone : Option String
  operater_name : Option String
  store_name : String
  channel_name : String
  create_at : Int
  created_at : Int
  total_origin_price : Option ℚ
  discount_price : Option ℚ
  deriving DecidableEq, Repr

/-- Row of the `order_payment` table (the columns this development
uses).  `is_pay_success` is a nullable SQL boolean. -/
structure SaleOrderPayment where
  order_id : Int
  payment_method_id : Int
  payment_method_name : String
  payment_amount : ℚ
  is_pay_success : Option Bool
  deriving DecidableEq, Repr

/-- Row of the `order_item` table, restricted to the columns the stated
properties touch (the raw SQL of `get_order_items_by_order_number`
selects further display-only columns that no property mentions). -/
structure OrderItemRow where
  id : Int
  order_number : String
  goods_sale_name : String
  barcode : String
  disabled : Bool
  purchase_quantity : Option ℚ
  deriving DecidableEq, Repr

/-- Method `SaleOrderDao.convert_aggregated_refund_result_code`: classify the
aggregated-payment refund status of a refund id against the precomputed
success map (`0`: no aggregated payment, `1`: refund pending,
`2`: refund succeeded, `3`: refund failed).  The Python `dict` is
embedded as an association list; `not in` / `.get` become
`List.lookup`. -/
def convert_aggregated_refund_result_code
    (refund_id : Int) (aggregated_status_by_refund_id_map : List (Int × Option Bool)) : Nat :=
  match aggregated_status_by_refund_id_map.lookup refund_id with
  | none => 0
  | some is_aggregated_refund_success =>
    match is_aggregated_refund_success with
    | none => 1
    | some true => 2
    | some false => 3

/-- Method `SaleOrderDao.get_total_purchase_quantity`: decimal accumulation of
the purchase quantities of the page items.  The loop guard
`if purchase_quantity:` skips both SQL `NULL` (`none`) and a zero
decimal (Python falsiness of `Decimal("0")`). -/
def get_total_purchase_quantity (order_items : List OrderItemRow) : ℚ :=
  if order_items = [] then 0
  else
    order_items.foldl
      (fun total_purchase_quantity order_item =>
        match order_item.purchase_quantity with
        | none => total_purchase_quantity
        | some purchase_quantity =>
          if purchase_quantity = 0 then total_purchase_quantity
          else total_purchase_quantity + purchase_quantity)
      0

/-- Modelled from the spec: `DEFAULT_ESCAPE_CHAR` is imported from
`app.utils.sql_util`, which is not part of the given source tree; the
spec only requires "a fixed, documented escape character".  We fix the
usual backslash. -/
def DEFAULT_ESCAPE_CHAR : Char := '\\'

/-- Modelled from the spec: `fuzzy_search_string` is imported from
`app.utils.sql_util`, not part of the given source tree.  Per the spec,
it builds a substring ILIKE pattern in which the pattern wildcards
(`%`, `_`) and the escape character itself are each preceded by the
escape character before the input is embedded between `%` anchors. -/
def fuzzy_search_string (s : String) (escape_char : Char) : String :=
  "%"
    ++ String.join (s.toList.map (fun c =>
        if c = '%' ∨ c = '_' ∨ c = escape_char then String.mk [escape_char, c]
        else String.mk [c]))
    ++ "%"

/-- The query parameters of `do_get_local_order_list_info`
(schema `QueryParamIn`), restricted to the fields the source reads.
Optional text fields use `""` for Python-falsy absence, optional lists
use `[]`, optional timestamps use `none`. -/
structure QueryParamIn where
  company_id : Int
  order_num_or_user : String
  store_ids : List Int
  channel_ids : List Int
  states : List Int
  operater_name_or_phone : String
  create_at_start : Option Int
  create_at_end : Option Int
  business_day_start : Option Int
  business_day_end : Option Int
  payment_method : List Int
  page_size : Int
  page_number : Int
  deriving DecidableEq, Repr

/-- One entry of the amount filter of the PC query (schema `AmountFilter`).
The schema type lives outside the source tree; per the spec it carries
an `amount_type ∈ {total_price, discount_price, receive_price}`, an
enumerated comparison operator, and a decimal value.  The enumerated
operator (`ComparisonOperator`, also external) is modelled from the
spec by its symbol: one of `>`, `>=`, `<`, `<=`, `=`, `!=`. -/
structure AmountFilter where
  amount_type : String
  operator : String
  value : ℚ
  deriving DecidableEq, Repr

/-- The query parameters of `do_get_local_order_pc_list_info`
(schema `QueryParamPCIn`), restricted to the fields the source reads. -/
structure QueryParamPCIn where
  company_id : Int
  store_ids : List Int
  order_number : String
  product_name : String
  states : List Int
  amount_filter : List AmountFilter
  payment_method : List Int
  create_at_start : Option Int
  create_at_end : Option Int
  channel_ids : List Int
  user_name_or_phone : String
  operater_name_or_phone : String
  business_day_start : Option Int
  business_day_end : Option Int
  receive_price : Option String
  total_origin_price : Option String
  discount_price : Option String
  page_size : Int
  page_number : Int
  deriving DecidableEq, Repr

/-- The three order columns an amount filter can target, plus the
correlated successful-payment-sum subquery substituted for
`receive_price` by `get_amount_condition`. -/
inductive AmountExpr where
  | total_origin_price_col : AmountExpr
  | discount_price_col : AmountExpr
  | payment_amount_col : AmountExpr
  | success_pay_subquery : AmountExpr
  deriving DecidableEq, Repr

/-- The six comparison operators appearing in the `operator_mapping`
dict of `get_amount_condition`. -/
inductive CompOp where
  | gt | gte | lt | lte | eq | neq
  deriving DecidableEq, Repr

/-- A SQLAlchemy condition as appended to the `conditions` list by the
two list-query builders.  Text-search constructors record the ILIKE
pattern string actually built and the `escape=` argument actually
passed (`none` when the source passes no escape argument). -/
inductive Cond where
  /-- Source: `SaleOrder.disabled.is_(False)` -/
  | disabledIsFalse : Cond
  /-- Source: `SaleOrder.company_id == company_id` -/
  | companyIdEq (company_id : Int) : Cond
  /-- Source: `SaleOrder.order_source == OrderSourceEnum.STORE_ORDER.code` -/
  | orderSourceIsStore : Cond
  /-- list query: the `or_` over `order_number`, `member_name`,
  `member_phone` ILIKEs plus the item-exists subquery over the item
  `goods_sale_name` / `barcode` ILIKEs, all with one pattern. -/
  | keywordSearch (pattern : String) (escape : Option Char) : Cond
  /-- Source: `SaleOrder.store_team_info_id.in_(store_ids)` -/
  | storeTeamIdIn (ids : List Int) : Cond
  /-- Source: `SaleOrder.channel_id.in_(channel_ids)` -/
  | channelIdIn (ids : List Int) : Cond
  /-- Source: `SaleOrder.state.in_(states)` -/
  | stateIn (states : List Int) : Cond
  /-- list query: the `or_` over `operater_name`, `operater_phone`,
  `shopping_guide_name` ILIKEs. -/
  | operaterSearch (pattern : String) (escape : Option Char) : Cond
  /-- Source: `SaleOrder.created_at >= create_at_start` -/
  | createdAtGe (t : Int) : Cond
  /-- Source: `SaleOrder.created_at <= create_at_end` -/
  | createdAtLe (t : Int) : Cond
  /-- Source: `SaleOrder.business_day >= business_day_start` -/
  | businessDayGe (t : Int) : Cond
  /-- Source: `SaleOrder.business_day <= business_day_end` -/
  | businessDayLe (t : Int) : Cond
  /-- the exists-subquery over successful payments whose method id is
  in `payment_method`. -/
  | paySuccessMethodIn (ids : List Int) : Cond
  /-- PC query: `SaleOrder.order_number.ilike(...)`. -/
  | orderNumberIlike (pattern : String) (escape : Option Char) : Cond
  /-- PC query: the item-exists subquery over the item
  `goods_sale_name` / `barcode` ILIKEs. -/
  | productNameSearch (pattern : String) (escape : Option Char) : Cond
  /-- PC query: the `or_` over `member_name`, `member_phone` ILIKEs. -/
  | userNameOrPhoneSearch (pattern : String) (escape : Option Char) : Cond
  /-- PC query: the `or_` over `operater_name`, `operater_phone`
  ILIKEs. -/
  | operaterSearchPc (pattern : String) (escape : Option Char) : Cond
  /-- an amount comparison built by `get_amount_condition`. -/
  | amount (e : AmountExpr) (op : CompOp) (v : ℚ) : Cond
  deriving DecidableEq, Repr

/-- The `(pattern, escape)` pair of a user-text ILIKE condition, `none`
for conditions that embed no user text in a pattern. -/
def Cond.textSearchEscape : Cond → Option (String × Option Char)
  | .keywordSearch p e => some (p, e)
  | .operaterSearch p e => some (p, e)
  | .orderNumberIlike p e => some (p, e)
  | .productNameSearch p e => some (p, e)
  | .userNameOrPhoneSearch p e => some (p, e)
  | .operaterSearchPc p e => some (p, e)
  | _ => none

/-- Pattern `if field: conditions.append(f(field))` for an optional text
field (`""` is Python-falsy). -/
def whenStr (s : String) (f : String → Cond) : List Cond :=
  if s = "" then [] else [f s]

/-- Pattern `if field: conditions.append(f(field))` for an optional id list
(`[]` is Python-falsy). -/
def whenList (l : List Int) (f : List Int → Cond) : List Cond :=
  if l = [] then [] else [f l]

/-- Pattern `if field: conditions.append(f(field))` for an optional
timestamp. -/
def whenSome {α : Type} (o : Option α) (f : α → Cond) : List Cond :=
  match o with
  | some a => [f a]
  | none => []

@[simp] theorem mem_whenStr {s : String} {f : String → Cond} {c : Cond} :
    c ∈ whenStr s f ↔ s ≠ "" ∧ c = f s := by
  unfold whenStr; split <;> simp_all

@[simp] theorem mem_whenList {l : List Int} {f : List Int → Cond} {c : Cond} :
    c ∈ whenList l f ↔ l ≠ [] ∧ c = f l := by
  unfold whenList; split <;> simp_all

@[simp] theorem mem_whenSome {α : Type} {o : Option α} {f : α → Cond} {c : Cond} :
    c ∈ whenSome o f ↔ ∃ a, o = some a ∧ c = f a := by
  cases o <;> simp [whenSome]

/-- The `conditions` list assembled by `do_get_local_order_list_info`,
in source order. -/
def listConditions (p : QueryParamIn) : List Cond :=
  [Cond.disabledIsFalse, Cond.companyIdEq p.company_id, Cond.orderSourceIsStore]
  ++ whenStr p.order_num_or_user (fun s =>
      Cond.keywordSearch (fuzzy_search_string s DEFAULT_ESCAPE_CHAR) (some DEFAULT_ESCAPE_CHAR))
  ++ whenList p.store_ids Cond.storeTeamIdIn
  ++ whenList p.channel_ids Cond.channelIdIn
  ++ (if p.states ≠ [] then [Cond.stateIn p.states]
      else [Cond.stateIn [4, 5, 6, 8, 9, 10, 11]])
  ++ whenStr p.operater_name_or_phone (fun s =>
      Cond.operaterSearch ("%" ++ s ++ "%") none)
  ++ whenSome p.create_at_start Cond.createdAtGe
  ++ whenSome p.create_at_end Cond.createdAtLe
  ++ whenSome p.business_day_start Cond.businessDayGe
  ++ whenSome p.business_day_end Cond.businessDayLe
  ++ whenList p.payment_method Cond.paySuccessMethodIn

/-- The `amount_field_mapping` dict of `get_amount_condition`. -/
def amount_field_mapping : List (String × AmountExpr) :=
  [("total_price", AmountExpr.total_origin_price_col),
   ("discount_price", AmountExpr.discount_price_col),
   ("receive_price", AmountExpr.payment_amount_col)]

/-- The `operator_mapping` dict of `get_amount_condition`, keyed by the
spec-modelled operator symbol of `ComparisonOperator`. -/
def operator_mapping : List (String × CompOp) :=
  [(">", CompOp.gt), (">=", CompOp.gte), ("<", CompOp.lt),
   ("<=", CompOp.lte), ("=", CompOp.eq), ("!=", CompOp.neq)]

/-- Method `SaleOrderDao.get_amount_condition`: an unknown `amount_type` is
absent from `amount_field_mapping` and yields `None`; `receive_price`
swaps the column for the correlated successful-payment-sum subquery;
the final `operator_mapping[amount_filter.operator]` subscript raises
`KeyError` (here `Except.error`) on an unmapped operator. -/
def get_amount_condition (amount_filter : AmountFilter) : Except String (Option Cond) :=
  match amount_field_mapping.lookup amount_filter.amount_type with
  | none => Except.ok none
  | some field0 =>
    let field : AmountExpr :=
      if amount_filter.amount_type = "receive_price" then AmountExpr.success_pay_subquery
      else field0
    match operator_mapping.lookup amount_filter.operator with
    | none => Except.error ("KeyError: " ++ amount_filter.operator)
    | some op => Except.ok (some (Cond.amount field op amount_filter.value))

/-- The amount-filter loop of `do_get_local_order_pc_list_info`:
the condition of each filter is appended when it is not `None`; an exception
from `get_amount_condition` propagates. -/
def pcAmountConds : List AmountFilter → Except String (List Cond)
  | [] => Except.ok []
  | amount_filter :: rest =>
    match get_amount_condition amount_filter with
    | Except.error e => Except.error e
    | Except.ok condition =>
      match pcAmountConds rest with
      | Except.error e => Except.error e
      | Except.ok conds =>
        match condition with
        | some c => Except.ok (c :: conds)
        | none => Except.ok conds

/-- The `conditions` list assembled by `do_get_local_order_pc_list_info`,
in source order. -/
def pcConditions (p : QueryParamPCIn) : Except String (List Cond) :=
  match pcAmountConds p.amount_filter with
  | Except.error e => Except.error e
  | Except.ok amountConds => Except.ok (
    [Cond.disabledIsFalse, Cond.companyIdEq p.company_id, Cond.orderSourceIsStore]
    ++ whenList p.store_ids Cond.storeTeamIdIn
    ++ whenStr p.order_number (fun s => Cond.orderNumberIlike ("%" ++ s ++ "%") none)
    ++ whenStr p.product_name (fun s =>
        Cond.productNameSearch (fuzzy_search_string s DEFAULT_ESCAPE_CHAR) (some DEFAULT_ESCAPE_CHAR))
    ++ (if p.states ≠ [] then [Cond.stateIn p.states]
        else [Cond.stateIn [4, 5, 6, 8, 9, 10, 11]])
    ++ amountConds
    ++ whenList p.payment_method Cond.paySuccessMethodIn
    ++ whenSome p.create_at_start Cond.createdAtGe
    ++ whenSome p.create_at_end Cond.createdAtLe
    ++ whenList p.channel_ids Cond.channelIdIn
    ++ whenStr p.user_name_or_phone (fun s =>
        Cond.userNameOrPhoneSearch ("%" ++ s ++ "%") none)
    ++ whenStr p.operater_name_or_phone (fun s =>
        Cond.operaterSearchPc ("%" ++ s ++ "%") none)
    ++ whenSome p.business_day_start Cond.businessDayGe
    ++ whenSome p.business_day_end Cond.businessDayLe)

/-- The `member_name_phone` CASE expression shared by the list, PC-list
and detail projections: `name(phone)` when both are present and
non-empty, the walk-in label `"散客"` when the name is NULL or empty,
otherwise the bare name. -/
def member_name_phone (o : SaleOrder) : String :=
  if o.member_phone.isSome ∧ o.member_name.isSome
      ∧ o.member_name ≠ some "" ∧ o.member_phone ≠ some "" then
    o.member_name.getD "" ++ "(" ++ o.member_phone.getD "" ++ ")"
  else if o.member_name = none ∨ o.member_name = some "" then "散客"
  else o.member_name.getD ""

/-- The per-order row of the `pay_success` CTE of both list queries:
orders joined to their successful payments, grouped by order, the
payment amounts summed and rounded to 2 places.  The group (and hence
the outer-joined column) is absent exactly when the order has no
payment row with `is_pay_success` true. -/
def success_pay_amount (payments : List SaleOrderPayment) (o : SaleOrder) : Option ℚ :=
  let rows := payments.filter (fun pm =>
    pm.order_id == o.record_id && pm.is_pay_success == some true)
  if rows = [] then none
  else some (round2 ((rows.map (fun pm => pm.payment_amount)).sum))

/-- The `payment_methods` CTE of both list queries: the distinct
payment-method names of the payment rows of an order joined with `"、"`,
absent when the order has no payment row. -/
def pay_channel (payments : List SaleOrderPayment) (record_id : Int) : Option String :=
  let names :=
    ((payments.filter (fun pm => pm.order_id == record_id)).map
      (fun pm => pm.payment_method_name)).eraseDups
  if names = [] then none else some (String.intercalate "、" names)

/-- The `receive_price` CASE expression of the list and PC-list
projections: the dash while the state name is `已创建` (created) or
`待支付` (awaiting payment); otherwise the outer-joined rounded
successful-payment sum, or the dash when that column is NULL. -/
def receive_price_case (state_name : String) (pay_amount : Option ℚ) : Disp :=
  if state_name = "已创建" ∨ state_name = "待支付" then Disp.dash
  else
    match pay_amount with
    | some v => Disp.val v
    | none => Disp.dash

/-- One record of the list / PC-list projection (the columns both main
queries select). -/
structure OrderListRecord where
  id : Int
  order_number : String
  store_name : String
  channel_name : String
  store_channel_name : String
  member_name_phone : String
  create_at : Int
  total_origin_price : Disp
  discount_price : Disp
  receive_price : Disp
  state_name : String
  operater_name_phone : String
  pay_channel : Option String
  deriving DecidableEq, Repr

/-- The shared column list of the two main queries
(`do_get_local_order_list_info` and `do_get_local_order_pc_list_info`
select the same expressions).  `state_case` is the state-description
CASE built by `sale_order_state_trans` from the external
`OrderStateEnum`. -/
def project_order_row (state_case : Int → String) (payments : List SaleOrderPayment)
    (o : SaleOrder) : OrderListRecord :=
  { id := o.id
    order_number := o.order_number
    store_name := o.store_name
    channel_name := o.channel_name
    store_channel_name := o.store_name ++ " - " ++ o.channel_name
    member_name_phone := member_name_phone o
    create_at := o.create_at
    total_origin_price :=
      match o.total_origin_price with
      | some v => Disp.val (round2 v)
      | none => Disp.dash
    discount_price :=
      match o.discount_price with
      | some v => Disp.val (round2 v)
      | none => Disp.dash
    receive_price := receive_price_case (state_case o.state) (success_pay_amount payments o)
    state_name := state_case o.state
    operater_name_phone :=
      match o.operater_name with
      | some n => n
      | none => "-"
    pay_channel := pay_channel payments o.record_id }

/-- The row projection of the `main_query` of
`do_get_local_order_list_info`. -/
def list_record_projection (state_case : Int → String) (payments : List SaleOrderPayment)
    (o : SaleOrder) : OrderListRecord :=
  project_order_row state_case payments o

/-- The row projection of the `main_query` of
`do_get_local_order_pc_list_info`. -/
def pc_list_record_projection (state_case : Int → String) (payments : List SaleOrderPayment)
    (o : SaleOrder) : OrderListRecord :=
  project_order_row state_case payments o

/-- The keys of the dict returned by `do_get_local_order_list_info`. -/
def local_order_list_result_keys : List String :=
  ["records_list", "all_count"]

/-- The keys of the dict returned by `do_get_local_order_pc_list_info`
(both its early-exit branch and its final return). -/
def local_order_pc_list_result_keys : List String :=
  ["records_list", "amount_data"]

/-- The record returned by `do_get_local_order_detail_info`, restricted
to the columns the stated properties touch. -/
structure OrderDetailRecord where
  id : Int
  order_number : String
  state_name : String
  member_name_phone : String
  receive_price : Disp
  deriving DecidableEq, Repr

/-- The `pay_success_disperse` CTE of the detail query: the (unrounded)
sum of the successful payment amounts of the order, absent when there is no
successful payment row. -/
def detail_success_pay_total (payments : List SaleOrderPayment) (o : SaleOrder) : Option ℚ :=
  let rows := payments.filter (fun pm =>
    pm.order_id == o.record_id && pm.is_pay_success == some true)
  if rows = [] then none
  else some ((rows.map (fun pm => pm.payment_amount)).sum)

/-- Method `SaleOrderDao.do_get_local_order_detail_info`: fetch the single
non-disabled order matching the record id and company id and project
it; `fetchone()` returning no row yields `None`. -/
def do_get_local_order_detail_info (state_case : Int → String)
    (orders : List SaleOrder) (payments : List SaleOrderPayment)
    (record_id company_id : Int) : Option OrderDetailRecord :=
  (orders.find? (fun o =>
      !o.disabled && o.company_id == company_id && o.id == record_id)).map
    (fun o =>
      { id := o.id
        order_number := o.order_number
        state_name := state_case o.state
        member_name_phone := member_name_phone o
        receive_price :=
          if state_case o.state = "已创建" ∨ state_case o.state = "待支付" then Disp.dash
          else
            match detail_success_pay_total payments o with
            | some t => Disp.val (round2 t)
            | none => Disp.dash })

/-- The `amount_data` aggregate of the PC list query. -/
structure PcAmountData where
  total_price : ℚ
  total_discount_price : ℚ
  total_receive_price : ℚ
  total_count : Int
  deriving DecidableEq, Repr

/-- Method `get_order_items_by_order_number`: the grouped item rows, as the
lookup the caller performs with `.get(order_number, [])`.  The query
returns nothing when the order-number list is empty, and otherwise the
non-disabled item rows of the requested order numbers. -/
def get_order_items_by_order_number (db_items : List OrderItemRow)
    (order_number_list : List String) : String → List OrderItemRow :=
  if order_number_list = [] then fun _ => []
  else fun num =>
    if num ∈ order_number_list then
      db_items.filter (fun it => it.order_number == num && !it.disabled)
    else []

/-- A record of the PC list result after the item-enrichment loop
attached `goods_info` and `total_purchase_quantity`. -/
structure EnrichedRecord where
  record : OrderListRecord
  goods_info : List OrderItemRow
  total_purchase_quantity : ℚ
  deriving DecidableEq, Repr

/-- The full PC list response. -/
structure PcListInfoResult where
  records_list : List EnrichedRecord
  amount_data : PcAmountData
  deriving DecidableEq, Repr

/-- The database round trips `do_get_local_order_pc_list_info` performs
after the page of order ids is known. -/
inductive PcStageQuery where
  | main_projection : PcStageQuery
  | item_enrichment : PcStageQuery
  | amount_count : PcStageQuery
  deriving DecidableEq, Repr

/-- The `amount_count_query` of the PC list query: over the orders of
the base filter, the rounded sums of origin price, discount price and
outer-joined successful-payment sums (each `coalesce`d to 0 when every
summand is NULL), plus the matching-row count. -/
def pc_amount_count (orders : List SaleOrder) (payments : List SaleOrderPayment)
    (base_ids : List Int) : PcAmountData :=
  let rows := orders.filter (fun o => base_ids.contains o.id)
  let origin_vals := rows.filterMap (fun o => o.total_origin_price)
  let discount_vals := rows.filterMap (fun o => o.discount_price)
  let receive_vals := rows.filterMap (fun o => success_pay_amount payments o)
  { total_price := if origin_vals = [] then 0 else round2 origin_vals.sum
    total_discount_price := if discount_vals = [] then 0 else round2 discount_vals.sum
    total_receive_price := if receive_vals = [] then 0 else round2 receive_vals.sum
    total_count := rows.length }

/-- The tail of `do_get_local_order_pc_list_info`, from the
`if not order_ids:` guard on.  `order_ids` / `order_numbers` are the
page fetched by the ordered id query and `base_ids` the ids matching
the base filter.  Alongside the response it returns the trace of
further round trips, empty on the early exit. -/
def pc_list_page_stage (state_case : Int → String)
    (orders : List SaleOrder) (payments : List SaleOrderPayment)
    (db_items : List OrderItemRow) (base_ids : List Int)
    (order_ids : List Int) (order_numbers : List String) :
    PcListInfoResult × List PcStageQuery :=
  if order_ids = [] then
    ({ records_list := []
       amount_data :=
        { total_price := 0, total_discount_price := 0
          total_receive_price := 0, total_count := 0 } },
     [])
  else
    let items_of := get_order_items_by_order_number db_items order_numbers
    let records :=
      (orders.filter (fun o => order_ids.contains o.id)).map (fun o =>
        let record := pc_list_record_projection state_case payments o
        let order_items := items_of record.order_number
        { record := record
          goods_info := order_items
          total_purchase_quantity := get_total_purchase_quantity order_items })
    ({ records_list := records
       amount_data := pc_amount_count orders payments base_ids },
     [PcStageQuery.main_projection, PcStageQuery.item_enrichment,
      PcStageQuery.amount_count])

/-- The page query of either list variant: base filter conditions plus
`LIMIT`/`OFFSET`. -/
structure BuiltPageQuery where
  conditions : List Cond
  limit : Int
  offset : Int
  deriving DecidableEq, Repr

/-- The `count_query` of `do_get_local_order_list_info`: a bare count
over the ids matching the base filter conditions, with none of the
display joins. -/
structure BuiltCountQuery where
  conditions : List Cond
  deriving DecidableEq, Repr

/-- The query-shaping part of `do_get_local_order_list_info`:
`offset_count = page_size * (page_number - 1)`, the main query limited
to the page, and the independent count query over the same base
conditions. -/
def build_list_query (p : QueryParamIn) : BuiltPageQuery × BuiltCountQuery :=
  let offset_count := p.page_size * (p.page_number - 1)
  let conditions := listConditions p
  ({ conditions := conditions, limit := p.page_size, offset := offset_count },
   { conditions := conditions })

/-- The query-shaping part of the ordered id query of the PC variant:
`offset_count = page_size * (page_number - 1)` applied to the base
conditions. -/
def build_pc_order_query (p : QueryParamPCIn) : Except String BuiltPageQuery :=
  let offset_count := p.page_size * (p.page_number - 1)
  match pcConditions p with
  | Except.error e => Except.error e
  | Except.ok conditions =>
    Except.ok { conditions := conditions, limit := p.page_size, offset := offset_count }

/-! ### Shared concrete sample inputs -/

/-- A concrete state-description table: `2` is `待支付` (awaiting
payment), everything else is treated as completed. -/
def sample_state_case : Int → String :=
  fun s => if s = 2 then "待支付" else "已完成"

/-- An order sitting in state `2` (awaiting payment). -/
def sample_order : SaleOrder :=
  { id := 1, record_id := 101, company_id := 1, disabled := false
    order_source := 3, state := 2, order_number := "SO-1"
    member_name := none, member_phone := none, operater_name := none
    store_name := "store", channel_name := "channel"
    create_at := 0, created_at := 0
    total_origin_price := some 50, discount_price := some 50 }

/-- A successful payment row of 50.00 for `sample_order`. -/
def sample_payment : SaleOrderPayment :=
  { order_id := 101, payment_method_id := 1, payment_method_name := "cash"
    payment_amount := 50, is_pay_success := some true }

/-- List-query parameters with every optional filter absent. -/
def sample_query_param : QueryParamIn :=
  { company_id := 1, order_num_or_user := "", store_ids := [], channel_ids := []
    states := [], operater_name_or_phone := "", create_at_start := none
    create_at_end := none, business_day_start := none, business_day_end := none
    payment_method := [], page_size := 20, page_number := 3 }

/-- PC-query parameters with every optional filter absent. -/
def sample_pc_query_param : QueryParamPCIn :=
  { company_id := 1, store_ids := [], order_number := "", product_name := ""
    states := [], amount_filter := [], payment_method := [], create_at_start := none
    create_at_end := none, channel_ids := [], user_name_or_phone := ""
    operater_name_or_phone := "", business_day_start := none, business_day_end := none
    receive_price := none, total_origin_price := none, discount_price := none
    page_size := 10, page_number := 4 }

/-! ### Claim theorems -/

/-- C2: `convert_aggregated_refund_result_code` returns 0 exactly when
the refund id is not a key of the success map, 1 exactly when the id
maps to `None` (pending), 2 exactly when it maps to true, and 3 exactly
when it maps to false. -/
theorem convert_aggregated_refund_result_code_spec
    (refund_id : Int) (m : List (Int × Option Bool)) :
    (convert_aggregated_refund_result_code refund_id m = 0 ↔ m.lookup refund_id = none)
  ∧ (convert_aggregated_refund_result_code refund_id m = 1 ↔ m.lookup refund_id = some none)
  ∧ (convert_aggregated_refund_result_code refund_id m = 2 ↔
      m.lookup refund_id = some (some true))
  ∧ (convert_aggregated_refund_result_code refund_id m = 3 ↔
      m.lookup refund_id = some (some false)) := by
  rcases h : m.lookup refund_id with _ | ob
  · simp [convert_aggregated_refund_result_code, h]
  · rcases ob with _ | b
    · simp [convert_aggregated_refund_result_code, h]
    · cases b <;> simp [convert_aggregated_refund_result_code, h]

/-- Accumulation lemma for the loop of `get_total_purchase_quantity`. -/
theorem purchase_quantity_foldl_eq (l : List OrderItemRow) : ∀ a : ℚ,
    l.foldl
      (fun total_purchase_quantity order_item =>
        match order_item.purchase_quantity with
        | none => total_purchase_quantity
        | some purchase_quantity =>
          if purchase_quantity = 0 then total_purchase_quantity
          else total_purchase_quantity + purchase_quantity)
      a
    = a + (l.map (fun it => it.purchase_quantity.getD 0)).sum := by
  induction l with
  | nil => intro a; simp
  | cons x xs ih =>
    intro a
    rcases hq : x.purchase_quantity with _ | q
    · simp only [List.foldl_cons, hq, List.map_cons, List.sum_cons, Option.getD_none]
      rw [ih]; ring
    · by_cases h0 : q = 0
      · simp only [List.foldl_cons, hq, h0, if_true, List.map_cons, List.sum_cons,
          Option.getD_some, ite_true]
        rw [ih]; ring
      · simp only [List.foldl_cons, hq, h0, List.map_cons, List.sum_cons,
          Option.getD_some, ite_false, if_neg h0]
        rw [ih]; ring

/-- C9: `get_total_purchase_quantity` returns the exact rational sum of
the item purchase quantities (a `NULL` quantity contributing nothing)
and exactly zero on the empty item list. -/
theorem total_purchase_quantity_sum (order_items : List OrderItemRow) :
    get_total_purchase_quantity order_items
      = (order_items.map (fun it => it.purchase_quantity.getD 0)).sum
  ∧ get_total_purchase_quantity [] = 0 := by
  constructor
  · unfold get_total_purchase_quantity
    by_cases h : order_items = []
    · simp [h]
    · rw [if_neg h, purchase_quantity_foldl_eq]
      ring
  · rfl

/-- C10: when the page of the PC list query matches no order ids,
`do_get_local_order_pc_list_info` returns early with an empty
`records_list` and an all-zero `amount_data`, executing none of the
main-projection, item-enrichment or aggregate round trips. -/
theorem pc_empty_page_early_return (state_case : Int → String)
    (orders : List SaleOrder) (payments : List SaleOrderPayment)
    (db_items : List OrderItemRow) (base_ids : List Int)
    (order_numbers : List String) :
    pc_list_page_stage state_case orders payments db_items base_ids [] order_numbers
      = ({ records_list := []
           amount_data :=
            { total_price := 0, total_discount_price := 0
              total_receive_price := 0, total_count := 0 } },
         []) := by
  rfl

/-- C1: in both the list projection and the PC list projection, an
order whose state description is `已创建` (created) or `待支付`
(awaiting payment) displays `receive_price` as the dash regardless of
its successful payments; for any other state the display is the rounded
sum of the payment amounts whose success flag is true, or the dash when
the order has no successful payment row. -/
theorem receive_price_pending_dash (state_case : Int → String)
    (payments : List SaleOrderPayment) (o : SaleOrder) :
    ((state_case o.state = "已创建" ∨ state_case o.state = "待支付") →
        (list_record_projection state_case payments o).receive_price = Disp.dash
      ∧ (pc_list_record_projection state_case payments o).receive_price = Disp.dash)
  ∧ (¬(state_case o.state = "已创建" ∨ state_case o.state = "待支付") →
      ((list_record_projection state_case payments o).receive_price =
          (if payments.filter (fun pm =>
                pm.order_id == o.record_id && pm.is_pay_success == some true) = []
           then Disp.dash
           else Disp.val (round2
             (((payments.filter (fun pm =>
                  pm.order_id == o.record_id && pm.is_pay_success == some true)).map
                (fun pm => pm.payment_amount)).sum)))
        ∧ (pc_list_record_projection state_case payments o).receive_price =
            (list_record_projection state_case payments o).receive_price)) := by
  constructor
  · intro h
    have hd : receive_price_case (state_case o.state) (success_pay_amount payments o)
        = Disp.dash := by
      unfold receive_price_case
      rw [if_pos h]
    exact ⟨hd, hd⟩
  · intro h
    refine ⟨?_, rfl⟩
    show receive_price_case (state_case o.state) (success_pay_amount payments o) = _
    unfold receive_price_case success_pay_amount
    rw [if_neg h]
    by_cases hr : payments.filter (fun pm =>
        pm.order_id == o.record_id && pm.is_pay_success == some true) = []
    · simp [hr]
    · simp [hr]

/-- Witness for C1 at the example of the spec: an order awaiting payment
(state description `待支付`) with one successful payment row of 50.00
still displays the dash. -/
theorem receive_price_pending_dash_witness :
    (list_record_projection sample_state_case [sample_payment] sample_order).receive_price
      = Disp.dash :=
  ((receive_price_pending_dash sample_state_case [sample_payment] sample_order).1
    (Or.inr (by decide))).1

/-- C8: both paginated list operations apply an offset of exactly
`page_size × (page_number − 1)` before taking `page_size` rows, and the
total count of the list operation is an independent count query over exactly
the base filter conditions (no display joins: `BuiltCountQuery` carries
nothing but the conditions). -/
theorem pagination_offset_and_count (p : QueryParamIn) (p2 : QueryParamPCIn)
    (q : BuiltPageQuery) :
    ((build_list_query p).1.offset = p.page_size * (p.page_number - 1)
      ∧ (build_list_query p).1.limit = p.page_size
      ∧ (build_list_query p).2.conditions = (build_list_query p).1.conditions)
  ∧ (build_pc_order_query p2 = Except.ok q →
      q.offset = p2.page_size * (p2.page_number - 1) ∧ q.limit = p2.page_size) := by
  refine ⟨⟨rfl, rfl, rfl⟩, ?_⟩
  intro h
  unfold build_pc_order_query at h
  cases hc : pcConditions p2 with
  | error e => rw [hc] at h; exact absurd h (by simp)
  | ok cs =>
    rw [hc] at h
    simp only [Except.ok.injEq] at h
    rw [← h]
    exact ⟨rfl, rfl⟩

/-- Witness for C8 at concrete parameters (page size 10, page 4, no
filters): the built PC query has offset `10 × (4 − 1) = 30` and
limit 10. -/
theorem pagination_offset_and_count_witness :
    ({ conditions := [Cond.disabledIsFalse, Cond.companyIdEq 1, Cond.orderSourceIsStore,
         Cond.stateIn [4, 5, 6, 8, 9, 10, 11]], limit := 10, offset := 30 }
        : BuiltPageQuery).offset = 10 * (4 - 1)
  ∧ ({ conditions := [Cond.disabledIsFalse, Cond.companyIdEq 1, Cond.orderSourceIsStore,
         Cond.stateIn [4, 5, 6, 8, 9, 10, 11]], limit := 10, offset := 30 }
        : BuiltPageQuery).limit = 10 :=
  (pagination_offset_and_count sample_query_param sample_pc_query_param _).2 (by rfl)

/-- Counterexample to C4: the PC list query does not return a dict of
shape `{records_list, all_count}` — its return keys are
`{records_list, amount_data}`. -/
theorem pc_result_shape_counterexample :
    local_order_pc_list_result_keys ≠ ["records_list", "all_count"] := by
  decide

/-- C4 (amended): the plain list query returns
`{records_list, all_count}`; the PC list query returns
`{records_list, amount_data}` (its total row count lives inside
`amount_data.total_count`); and the detail query returns `None` when no
non-disabled row matches the given record id and company id. -/
theorem result_shape_amended (state_case : Int → String)
    (orders : List SaleOrder) (payments : List SaleOrderPayment)
    (record_id company_id : Int)
    (h : ∀ o ∈ orders, o.disabled = true ∨ o.company_id ≠ company_id ∨ o.id ≠ record_id) :
    local_order_list_result_keys = ["records_list", "all_count"]
  ∧ local_order_pc_list_result_keys = ["records_list", "amount_data"]
  ∧ do_get_local_order_detail_info state_case orders payments record_id company_id
      = none := by
  refine ⟨rfl, rfl, ?_⟩
  unfold do_get_local_order_detail_info
  have hf : orders.find? (fun o =>
      !o.disabled && o.company_id == company_id && o.id == record_id) = none := by
    rw [List.find?_eq_none]
    intro o ho
    rcases h o ho with hd | hcid | hid <;> simp_all
  rw [hf]
  rfl

/-- Witness for C4 at a concrete input: an order table whose single row
is disabled yields `None` from the detail query. -/
theorem result_shape_amended_witness :
    do_get_local_order_detail_info sample_state_case
      [{ sample_order with disabled := true }] [sample_payment] 1 1 = none :=
  (result_shape_amended sample_state_case [{ sample_order with disabled := true }]
    [sample_payment] 1 1
    (by intro o ho; simp at ho; subst ho; left; rfl)).2.2

/-- C5: an amount filter whose `amount_type` is not one of
`total_price`, `discount_price`, `receive_price` yields no predicate
from `get_amount_condition`, and prepending it to the amount
filters leaves the assembled condition list unchanged. -/
theorem unknown_amount_type_no_predicate (amount_filter : AmountFilter)
    (p : QueryParamPCIn)
    (h : amount_filter.amount_type ∉ ["total_price", "discount_price", "receive_price"]) :
    get_amount_condition amount_filter = Except.ok none
  ∧ pcConditions { p with amount_filter := amount_filter :: p.amount_filter }
      = pcConditions p := by
  have h1 : amount_filter.amount_type ≠ "total_price" := by
    intro hh; exact h (by simp [hh])
  have h2 : amount_filter.amount_type ≠ "discount_price" := by
    intro hh; exact h (by simp [hh])
  have h3 : amount_filter.amount_type ≠ "receive_price" := by
    intro hh; exact h (by simp [hh])
  have b1 : (amount_filter.amount_type == "total_price") = false := by
    rw [beq_eq_false_iff_ne]; exact h1
  have b2 : (amount_filter.amount_type == "discount_price") = false := by
    rw [beq_eq_false_iff_ne]; exact h2
  have b3 : (amount_filter.amount_type == "receive_price") = false := by
    rw [beq_eq_false_iff_ne]; exact h3
  have hl : amount_field_mapping.lookup amount_filter.amount_type = none := by
    simp [amount_field_mapping, List.lookup, b1, b2, b3]
  have hga : get_amount_condition amount_filter = Except.ok none := by
    unfold get_amount_condition
    rw [hl]
  refine ⟨hga, ?_⟩
  have hskip : pcAmountConds (amount_filter :: p.amount_filter)
      = pcAmountConds p.amount_filter := by
    rw [pcAmountConds, hga]
    cases pcAmountConds p.amount_filter <;> rfl
  unfold pcConditions
  simp only [hskip]

/-- Witness for C5 at a concrete input: an amount filter targeting the
unknown field `foo` contributes nothing. -/
theorem unknown_amount_type_no_predicate_witness :
    get_amount_condition { amount_type := "foo", operator := ">", value := 1 }
      = Except.ok none :=
  (unknown_amount_type_no_predicate { amount_type := "foo", operator := ">", value := 1 }
    sample_pc_query_param (by decide)).1

/-- C6: an amount filter with a recognized `amount_type` but an
operator code outside the six comparison operators makes
`get_amount_condition` raise (the `KeyError` of the `operator_mapping`
subscript) instead of silently returning no predicate. -/
theorem unknown_operator_fails_fast (amount_filter : AmountFilter)
    (h1 : amount_filter.amount_type ∈ ["total_price", "discount_price", "receive_price"])
    (h2 : amount_filter.operator ∉ [">", ">=", "<", "<=", "=", "!="]) :
    get_amount_condition amount_filter
      = Except.error ("KeyError: " ++ amount_filter.operator) := by
  have ho1 : amount_filter.operator ≠ ">" := by intro hh; exact h2 (by simp [hh])
  have ho2 : amount_filter.operator ≠ ">=" := by intro hh; exact h2 (by simp [hh])
  have ho3 : amount_filter.operator ≠ "<" := by intro hh; exact h2 (by simp [hh])
  have ho4 : amount_filter.operator ≠ "<=" := by intro hh; exact h2 (by simp [hh])
  have ho5 : amount_filter.operator ≠ "=" := by intro hh; exact h2 (by simp [hh])
  have ho6 : amount_filter.operator ≠ "!=" := by intro hh; exact h2 (by simp [hh])
  have hop : operator_mapping.lookup amount_filter.operator = none := by
    have b1 : (amount_filter.operator == ">") = false := by
      rw [beq_eq_false_iff_ne]; exact ho1
    have b2 : (amount_filter.operator == ">=") = false := by
      rw [beq_eq_false_iff_ne]; exact ho2
    have b3 : (amount_filter.operator == "<") = false := by
      rw [beq_eq_false_iff_ne]; exact ho3
    have b4 : (amount_filter.operator == "<=") = false := by
      rw [beq_eq_false_iff_ne]; exact ho4
    have b5 : (amount_filter.operator == "=") = false := by
      rw [beq_eq_false_iff_ne]; exact ho5
    have b6 : (amount_filter.operator == "!=") = false := by
      rw [beq_eq_false_iff_ne]; exact ho6
    simp [operator_mapping, List.lookup, b1, b2, b3, b4, b5, b6]
  simp only [List.mem_cons, List.not_mem_nil, or_false] at h1
  unfold get_amount_condition
  rcases h1 with h | h | h
  · rw [h]
    simp only [show amount_field_mapping.lookup "total_price"
        = some AmountExpr.total_origin_price_col from rfl]
    rw [hop]
  · rw [h]
    simp only [show amount_field_mapping.lookup "discount_price"
        = some AmountExpr.discount_price_col from rfl]
    rw [hop]
  · rw [h]
    simp only [show amount_field_mapping.lookup "receive_price"
        = some AmountExpr.payment_amount_col from rfl]
    rw [hop]

/-- Witness for C6 at a concrete input: a `total_price` filter with the
unmapped operator `~` raises. -/
theorem unknown_operator_fails_fast_witness :
    get_amount_condition { amount_type := "total_price", operator := "~", value := 5 }
      = Except.error ("KeyError: " ++ "~") :=
  unknown_operator_fails_fast { amount_type := "total_price", operator := "~", value := 5 }
    (by decide) (by decide)

/-- Membership through an `if` between two condition lists. -/
theorem mem_ite_cond {c : Prop} [Decidable c] {l l' : List Cond} {x : Cond} :
    x ∈ (if c then l else l') ↔ (c ∧ x ∈ l) ∨ (¬c ∧ x ∈ l') := by
  split <;> simp_all

/-- Whatever `get_amount_condition` successfully returns is an amount
comparison. -/
theorem get_amount_condition_ok_some (amount_filter : AmountFilter) (c : Cond)
    (h : get_amount_condition amount_filter = Except.ok (some c)) :
    ∃ f op v, c = Cond.amount f op v := by
  unfold get_amount_condition at h
  cases hf : amount_field_mapping.lookup amount_filter.amount_type with
  | none =>
    simp only [hf] at h
    exact Option.noConfusion (Except.ok.inj h)
  | some f0 =>
    simp only [hf] at h
    cases ho : operator_mapping.lookup amount_filter.operator with
    | none =>
      simp only [ho] at h
      exact Except.noConfusion h
    | some op =>
      simp only [ho, Except.ok.injEq, Option.some.injEq] at h
      exact ⟨_, op, amount_filter.value, h.symm⟩

/-- Every condition contributed by the amount-filter loop is an amount
comparison. -/
theorem pcAmountConds_amount (l : List AmountFilter) (cs : List Cond)
    (h : pcAmountConds l = Except.ok cs) :
    ∀ c ∈ cs, ∃ f op v, c = Cond.amount f op v := by
  induction l generalizing cs with
  | nil =>
    simp only [pcAmountConds, Except.ok.injEq] at h
    subst h
    intro c hc
    exact absurd hc (List.not_mem_nil c)
  | cons amount_filter rest ih =>
    rw [pcAmountConds] at h
    cases hga : get_amount_condition amount_filter with
    | error e =>
      simp only [hga] at h
      exact Except.noConfusion h
    | ok condition =>
      simp only [hga] at h
      cases hra : pcAmountConds rest with
      | error e =>
        simp only [hra] at h
        exact Except.noConfusion h
      | ok conds =>
        simp only [hra] at h
        cases condition with
        | none =>
          simp only [Except.ok.injEq] at h
          subst h
          exact ih conds hra
        | some c0 =>
          simp only [Except.ok.injEq] at h
          subst h
          intro c hc
          rcases List.mem_cons.mp hc with rfl | hc
          · exact get_amount_condition_ok_some amount_filter c hga
          · exact ih conds hra c hc

/-- C7: with no `states` parameter, both list-query builders constrain
the order state to the fixed allow-list `{4, 5, 6, 8, 9, 10, 11}` (and
that is the only state constraint assembled); with a non-empty `states`
list, the constraint uses exactly the supplied states. -/
theorem default_state_allowlist (p : QueryParamIn) (p2 : QueryParamPCIn)
    (cs : List Cond) (hok : pcConditions p2 = Except.ok cs) :
    (p.states = [] →
        Cond.stateIn [4, 5, 6, 8, 9, 10, 11] ∈ listConditions p
      ∧ ∀ s, Cond.stateIn s ∈ listConditions p → s = [4, 5, 6, 8, 9, 10, 11])
  ∧ (p.states ≠ [] →
        Cond.stateIn p.states ∈ listConditions p
      ∧ ∀ s, Cond.stateIn s ∈ listConditions p → s = p.states)
  ∧ (p2.states = [] →
        Cond.stateIn [4, 5, 6, 8, 9, 10, 11] ∈ cs
      ∧ ∀ s, Cond.stateIn s ∈ cs → s = [4, 5, 6, 8, 9, 10, 11])
  ∧ (p2.states ≠ [] →
        Cond.stateIn p2.states ∈ cs
      ∧ ∀ s, Cond.stateIn s ∈ cs → s = p2.states) := by
  cases ha : pcAmountConds p2.amount_filter with
  | error e =>
    unfold pcConditions at hok
    simp only [ha] at hok
    exact Except.noConfusion hok
  | ok ac =>
    unfold pcConditions at hok
    simp only [ha, Except.ok.injEq] at hok
    subst hok
    have hnost : ∀ s, Cond.stateIn s ∉ ac := by
      intro s hmem
      obtain ⟨f, op, v, hh⟩ := pcAmountConds_amount _ _ ha _ hmem
      exact Cond.noConfusion hh
    refine ⟨?_, ?_, ?_, ?_⟩
    · intro h
      constructor
      · simp [listConditions, h]
      · intro s hs
        simp [listConditions, h, mem_ite_cond] at hs
        exact hs
    · intro h
      constructor
      · simp [listConditions, mem_ite_cond, h]
      · intro s hs
        simp [listConditions, mem_ite_cond, h] at hs
        exact hs
    · intro h
      constructor
      · simp [h]
      · intro s hs
        simp [h, mem_ite_cond, hnost] at hs
        exact hs
    · intro h
      constructor
      · simp [mem_ite_cond, h]
      · intro s hs
        simp [mem_ite_cond, h, hnost] at hs
        exact hs

/-- Witness for C7 at concrete parameters with no supplied states: the
allow-list constraint is assembled. -/
theorem default_state_allowlist_witness :
    Cond.stateIn [4, 5, 6, 8, 9, 10, 11] ∈ listConditions sample_query_param :=
  ((default_state_allowlist sample_query_param sample_pc_query_param
    [Cond.disabledIsFalse, Cond.companyIdEq 1, Cond.orderSourceIsStore,
     Cond.stateIn [4, 5, 6, 8, 9, 10, 11]] (by rfl)).1 (by rfl)).1

/-- PC-query parameters whose order-number search input is the single
wildcard character `%`. -/
def pc_wildcard_query_param : QueryParamPCIn :=
  { sample_pc_query_param with order_number := "%" }

/-- List-query parameters with the keyword search input `abc`. -/
def sample_query_param_kw : QueryParamIn :=
  { sample_query_param with order_num_or_user := "abc" }

/-- Counterexample to C3: searching the PC list by order number `%`
embeds the raw input into the pattern `%%%` and passes no escape
argument, so the `%` of the user acts as a wildcard; the pattern is not the
escaped fuzzy pattern and the escape is not the fixed escape
character. -/
theorem text_filter_escape_counterexample :
    pcConditions pc_wildcard_query_param
      = Except.ok [Cond.disabledIsFalse, Cond.companyIdEq 1, Cond.orderSourceIsStore,
          Cond.orderNumberIlike "%%%" none, Cond.stateIn [4, 5, 6, 8, 9, 10, 11]]
  ∧ (Cond.orderNumberIlike "%%%" none).textSearchEscape = some ("%%%", none)
  ∧ ("%%%" : String) ≠ fuzzy_search_string "%" DEFAULT_ESCAPE_CHAR
  ∧ (none : Option Char) ≠ some DEFAULT_ESCAPE_CHAR := by
  refine ⟨by rfl, rfl, by decide, by decide⟩

/-- C3 (amended): only the combined keyword filter of the list query
(order number, member name, member phone, product name, barcode) and
the product-name/barcode filter of the PC query escape the user
wildcards with the fixed escape character; the operator name/phone
filter of the list query and the PC order-number, member
name/phone and operator name/phone filters embed the raw input between
`%` anchors with no escape argument. -/
theorem text_filter_escape_characterization (p : QueryParamIn) (p2 : QueryParamPCIn)
    (cs : List Cond) (hok : pcConditions p2 = Except.ok cs) :
    (∀ pat e, Cond.keywordSearch pat e ∈ listConditions p →
        pat = fuzzy_search_string p.order_num_or_user DEFAULT_ESCAPE_CHAR
      ∧ e = some DEFAULT_ESCAPE_CHAR)
  ∧ (∀ pat e, Cond.operaterSearch pat e ∈ listConditions p →
        pat = "%" ++ p.operater_name_or_phone ++ "%" ∧ e = none)
  ∧ (∀ pat e, Cond.productNameSearch pat e ∈ cs →
        pat = fuzzy_search_string p2.product_name DEFAULT_ESCAPE_CHAR
      ∧ e = some DEFAULT_ESCAPE_CHAR)
  ∧ (∀ pat e, Cond.orderNumberIlike pat e ∈ cs →
        pat = "%" ++ p2.order_number ++ "%" ∧ e = none)
  ∧ (∀ pat e, Cond.userNameOrPhoneSearch pat e ∈ cs →
        pat = "%" ++ p2.user_name_or_phone ++ "%" ∧ e = none)
  ∧ (∀ pat e, Cond.operaterSearchPc pat e ∈ cs →
        pat = "%" ++ p2.operater_name_or_phone ++ "%" ∧ e = none) := by
  cases ha : pcAmountConds p2.amount_filter with
  | error e =>
    unfold pcConditions at hok
    simp only [ha] at hok
    exact Except.noConfusion hok
  | ok ac =>
    unfold pcConditions at hok
    simp only [ha, Except.ok.injEq] at hok
    subst hok
    have hamount := pcAmountConds_amount _ _ ha
    have hno1 : ∀ pat (e : Option Char), Cond.productNameSearch pat e ∉ ac := by
      intro pat e hm
      obtain ⟨f, op, v, hh⟩ := hamount _ hm
      exact Cond.noConfusion hh
    have hno2 : ∀ pat (e : Option Char), Cond.orderNumberIlike pat e ∉ ac := by
      intro pat e hm
      obtain ⟨f, op, v, hh⟩ := hamount _ hm
      exact Cond.noConfusion hh
    have hno3 : ∀ pat (e : Option Char), Cond.userNameOrPhoneSearch pat e ∉ ac := by
      intro pat e hm
      obtain ⟨f, op, v, hh⟩ := hamount _ hm
      exact Cond.noConfusion hh
    have hno4 : ∀ pat (e : Option Char), Cond.operaterSearchPc pat e ∉ ac := by
      intro pat e hm
      obtain ⟨f, op, v, hh⟩ := hamount _ hm
      exact Cond.noConfusion hh
    refine ⟨?_, ?_, ?_, ?_, ?_, ?_⟩ <;> intro pat e hmem
    · simp [listConditions, mem_ite_cond] at hmem
      exact ⟨hmem.2.1, hmem.2.2⟩
    · simp [listConditions, mem_ite_cond] at hmem
      exact ⟨hmem.2.1, hmem.2.2⟩
    · simp [mem_ite_cond, hno1] at hmem
      exact ⟨hmem.2.1, hmem.2.2⟩
    · simp [mem_ite_cond, hno2] at hmem
      exact ⟨hmem.2.1, hmem.2.2⟩
    · simp [mem_ite_cond, hno3] at hmem
      exact ⟨hmem.2.1, hmem.2.2⟩
    · simp [mem_ite_cond, hno4] at hmem
      exact ⟨hmem.2.1, hmem.2.2⟩

/-- Witness for C3 (amended) at concrete inputs: the keyword filter
built for the input `abc` carries the escaped fuzzy pattern and the
fixed escape character. -/
theorem text_filter_escape_characterization_witness :
    fuzzy_search_string "abc" DEFAULT_ESCAPE_CHAR
        = fuzzy_search_string sample_query_param_kw.order_num_or_user DEFAULT_ESCAPE_CHAR
  ∧ (some DEFAULT_ESCAPE_CHAR : Option Char) = some DEFAULT_ESCAPE_CHAR :=
  (text_filter_escape_characterization sample_query_param_kw sample_pc_query_param
      [Cond.disabledIsFalse, Cond.companyIdEq 1, Cond.orderSourceIsStore,
       Cond.stateIn [4, 5, 6, 8, 9, 10, 11]] (by rfl)).1
    (fuzzy_search_string "abc" DEFAULT_ESCAPE_CHAR) (some DEFAULT_ESCAPE_CHAR)
    (by decide)
